import Mathlib

/-!
Shallow embedding of the review labeling engine of the
ethiopian-bank-reviews-analysis repository
(scripts/task2_analysis/sentiment_analysis.py,
scripts/task2_analysis/thematic_analysis.py, src/predict.py),
together with theorems checking the natural-language specification
against it.

Python scalar cell values that may appear in a `review_text` column are
modelled by `PyVal`: a missing value (`None` or float NaN, for which
`pd.isna` is true), an actual string, or some other (non-string,
non-missing) object whose `str()` rendering is recorded.  Floating point
scores are modelled by `ℚ`; the thresholds 0.05 and 0.6 are exact in
both `float` and `ℚ`, and only order comparisons on scores occur.
-/

/-- A Python value that may sit in a text cell: `none'`/`nan` are the
missing values (`pd.isna` true), `s` is a string, `obj r` is any other
object whose `str()` rendering is the string `r`. -/
inductive PyVal where
  | none'
  | nan
  | s (str : String)
  | obj (reprStr : String)
deriving DecidableEq

/-- Model of `pd.isna` on a scalar cell. -/
def pyIsNa : PyVal → Bool
  | PyVal.none' => true
  | PyVal.nan => true
  | PyVal.s _ => false
  | PyVal.obj _ => false

/-- Model of Python `str()` on a cell value; `str(float('nan'))` is
`"nan"` and `str(None)` is `"None"`. -/
def pyStrOf : PyVal → String
  | PyVal.none' => "None"
  | PyVal.nan => "nan"
  | PyVal.s t => t
  | PyVal.obj r => r

/-- Python's `\s` / `str.split()` whitespace over ASCII. -/
def isPySpace (c : Char) : Bool :=
  c == ' ' || c == '\t' || c == '\n' || c == '\r' ||
  c == Char.ofNat 11 || c == Char.ofNat 12

/-- Model of Python `str.lower()` (ASCII letters; review data is ASCII
for every keyword that matters). Structural, kernel-reducible. -/
def pyLower (t : String) : String :=
  ⟨t.data.map Char.toLower⟩

/-- Model of Python `str.strip()`: drop whitespace from both ends. -/
def pyStrip (t : String) : String :=
  ⟨((t.data.dropWhile isPySpace).reverse.dropWhile isPySpace).reverse⟩

/-- Bool test that `needle` occurs as a contiguous sublist of `hay`
(Python's `needle in hay` on strings), by structural recursion. -/
def isSubLA (needle : List Char) : List Char → Bool
  | [] => needle.isEmpty
  | c :: cs => needle.isPrefixOf (c :: cs) || isSubLA needle cs

/-- Model of Python `kw in text` (substring containment). -/
def pyContains (hay needle : String) : Bool :=
  isSubLA needle.data hay.data

/-- The fixed theme table `THEME_KEYWORDS` of
`thematic_analysis.py`, in its declaration order (a Python 3.7+ dict
preserves insertion order). -/
def THEME_KEYWORDS : List (String × List String) :=
  [("Account Access Issues",
    ["login", "password", "pin", "access", "account", "locked", "blocked",
     "verification", "authenticate", "security", "biometric", "fingerprint",
     "face", "id", "credentials", "sign in", "sign out", "session"]),
   ("Transaction Performance",
    ["transfer", "transaction", "payment", "slow", "fast", "speed",
     "timeout", "failed", "error", "processing", "pending", "complete",
     "money", "send", "receive", "balance", "amount", "fee", "charge"]),
   ("User Interface & Experience",
    ["ui", "interface", "design", "layout", "user friendly", "easy",
     "difficult", "confusing", "navigate", "menu", "button", "screen",
     "appearance", "look", "feel", "modern", "outdated", "cluttered"]),
   ("Customer Support",
    ["support", "help", "service", "customer", "contact", "response",
     "assistance", "issue", "problem", "complaint", "resolve", "fix",
     "chat", "call", "email", "response time", "wait", "queue"]),
   ("Feature Requests",
    ["feature", "add", "need", "want", "missing", "suggest", "request",
     "improve", "enhance", "update", "new", "functionality", "option",
     "budget", "savings", "investment", "loan", "bill", "notification"]),
   ("App Reliability",
    ["crash", "bug", "error", "freeze", "hang", "close", "stop",
     "working", "broken", "not working", "issue", "problem", "glitch",
     "stable", "reliable", "unstable", "force close", "restart"])]

/-- Per-theme keyword-presence counts on the already-lowercased text:
the loop `for keyword in keywords: if keyword.lower() in text_lower:
score += 1` of `identify_theme`, theme by theme in declaration order. -/
def theme_scores (text_lower : String) : List (String × Nat) :=
  THEME_KEYWORDS.map fun p =>
    (p.1, (p.2.filter fun kw => pyContains text_lower (pyLower kw)).length)

/-- Python's `max(d.values())` over the score dict (0 on the empty
dict only as a modelling default; the table is nonempty). -/
def maxVal (l : List (String × Nat)) : Nat :=
  l.foldl (fun m p => Nat.max m p.2) 0

/-- Python's `max(d, key=d.get)`: scan the entries left to right and
replace the current best only on a strictly larger value, so the first
entry attaining the maximum wins. -/
def pyDictMaxByVal (xs : List (String × Nat)) (x : String × Nat) : String × Nat :=
  xs.foldl (fun acc y => if acc.2 < y.2 then y else acc) x

/-- Body of `identify_theme` after `pd.isna` passed and the text has
been lowercased: score every theme, return the argmax key when the
maximum is positive, else `"Other"`. -/
def identifyThemeLower (text_lower : String) : String :=
  let sc := theme_scores text_lower
  if 0 < maxVal sc then
    (pyDictMaxByVal sc.tail (sc.headD ("Other", 0))).1
  else "Other"

/-- Model of `identify_theme` in `thematic_analysis.py`: `pd.isna` short
circuit to `"Other"`, otherwise match keywords on `str(text).lower()`. -/
def identify_theme (review_text : PyVal) : String :=
  if pyIsNa review_text then "Other"
  else identifyThemeLower (pyLower (pyStrOf review_text))

/-- Split a character list into maximal whitespace-free words (model of
Python `str.split()` with no argument). -/
def pyWordsAux : List Char → List Char → List String
  | [], acc => if acc.isEmpty then [] else [⟨acc.reverse⟩]
  | c :: cs, acc =>
    if isPySpace c then
      (if acc.isEmpty then pyWordsAux cs [] else (⟨acc.reverse⟩ : String) :: pyWordsAux cs [])
    else pyWordsAux cs (c :: acc)

/-- Model of `preprocess_text` in `thematic_analysis.py`: `""` on
missing input, else lowercase, replace every character outside
`[a-zA-Z0-9\s]` by a space (`re.sub`), then collapse whitespace via
`' '.join(text.split())`. -/
def preprocess_text (text : PyVal) : String :=
  if pyIsNa text then ""
  else
    let t := pyLower (pyStrOf text)
    let t2 : String := ⟨t.data.map fun c => if c.isAlphanum || isPySpace c then c else ' '⟩
    " ".intercalate (pyWordsAux t2.data [])

/-- The dict returned by VADER's `polarity_scores`: the three component
proportions and the compound score. The analyzer itself is an external
library, so a backend instance is any function producing such a dict
(or raising, modelled by `Except.error`). -/
structure PolarityScores where
  neg : ℚ
  neu : ℚ
  pos : ℚ
  compound : ℚ
deriving DecidableEq

/-- Errors the Python scripts can raise that the model distinguishes. -/
inductive PyError where
  | nameError (name : String)
  | importError
deriving DecidableEq

/-- A distilbert `pipeline` classifier: text to `(label, score)` of the
first result, or an exception. -/
def NeuralClassifier : Type := String → Except Unit (String × ℚ)

/-- A VADER analyzer: text to a polarity-scores dict, or an exception. -/
def VaderAnalyzer : Type := String → Except Unit PolarityScores

/-- Model of `analyze_sentiment_distilbert`: neutral default on
missing/blank text, classify, map `POSITIVE`/`NEGATIVE` through and any
other label to `("NEUTRAL", 0.5)`; any exception degrades to
`("NEUTRAL", 0.5)`. -/
def analyze_sentiment_distilbert (text : PyVal) (classifier : NeuralClassifier) :
    String × ℚ :=
  if pyIsNa text || pyStrip (pyStrOf text) == "" then ("NEUTRAL", 1/2)
  else
    match classifier (pyStrOf text) with
    | Except.error _ => ("NEUTRAL", 1/2)
    | Except.ok (label, score) =>
      if label == "POSITIVE" then ("POSITIVE", score)
      else if label == "NEGATIVE" then ("NEGATIVE", score)
      else ("NEUTRAL", 1/2)

/-- Model of `analyze_sentiment_vader`: neutral default on missing/blank
text, else compare the compound score with the 0.05 thresholds; any
exception degrades to `("NEUTRAL", 0.0)`. -/
def analyze_sentiment_vader (text : PyVal) (analyzer : VaderAnalyzer) :
    String × ℚ :=
  if pyIsNa text || pyStrip (pyStrOf text) == "" then ("NEUTRAL", 0)
  else
    match analyzer (pyStrOf text) with
    | Except.error _ => ("NEUTRAL", 0)
    | Except.ok scores =>
      let compound := scores.compound
      if compound ≥ 5/100 then ("POSITIVE", compound)
      else if compound ≤ -(5/100) then ("NEGATIVE", |compound|)
      else ("NEUTRAL", |compound|)

/-- The backend object returned by `initialize_sentiment_analyzer`:
either the distilbert pipeline or the VADER analyzer. -/
inductive Analyzer where
  | distilbert (classifier : NeuralClassifier)
  | vader (analyzer : VaderAnalyzer)

/-- The runtime environment a call to `initialize_sentiment_analyzer`
observes: which imports succeeded and what loading the distilbert
pipeline would yield at that moment. -/
structure Env where
  transformersAvailable : Bool
  distilbertLoad : Except Unit NeuralClassifier
  vaderAvailable : Bool
  vaderAnalyzer : VaderAnalyzer

/-- Model of `initialize_sentiment_analyzer`: prefer distilbert when
`transformers` imported and the pipeline loads, fall back to VADER,
else raise `ImportError`. -/
def initialize_sentiment_analyzer (env : Env) : Except PyError Analyzer :=
  match env.transformersAvailable, env.distilbertLoad with
  | true, Except.ok classifier => Except.ok (Analyzer.distilbert classifier)
  | _, _ =>
    if env.vaderAvailable then Except.ok (Analyzer.vader env.vaderAnalyzer)
    else Except.error PyError.importError

/-- Dispatch on the selected backend inside the batch loop
(`if analyzer_type == "distilbert": ... else: ...`). -/
def analyze_one (a : Analyzer) (text : PyVal) : String × ℚ :=
  match a with
  | Analyzer.distilbert classifier => analyze_sentiment_distilbert text classifier
  | Analyzer.vader analyzer => analyze_sentiment_vader text analyzer

/-- The input collection as the labeling engine sees it: an optional
`review_id` column and the `review_text` column (other columns are
passed through untouched and are irrelevant here). -/
structure ReviewFrame where
  review_id : Option (List Int)
  review_text : List PyVal
deriving DecidableEq

/-- Output columns of the sentiment batch run. -/
structure SentimentOut where
  review_id : List Int
  review_text : List PyVal
  sentiment_label : List String
  sentiment_score : List ℚ
deriving DecidableEq

/-- The data transformation of `perform_sentiment_analysis` after the
I/O bracket: attach `review_id = 1..N` when the column is absent, label
every row with the selected backend, then (distilbert only) downgrade
labels whose score is below 0.6 to `NEUTRAL`. -/
def sentimentCore (a : Analyzer) (df : ReviewFrame) : SentimentOut :=
  let ids :=
    match df.review_id with
    | some ids => ids
    | none => (List.range df.review_text.length).map fun i => (i : Int) + 1
  let results := df.review_text.map (analyze_one a)
  let labels := results.map Prod.fst
  let scores := results.map Prod.snd
  let labels :=
    match a with
    | Analyzer.distilbert _ =>
      List.zipWith (fun l sc => if sc < 6/10 then "NEUTRAL" else l) labels scores
    | Analyzer.vader _ => labels
  { review_id := ids, review_text := df.review_text,
    sentiment_label := labels, sentiment_score := scores }

/-- The theme column computed by `perform_thematic_analysis`:
`df['theme'] = df['review_text'].apply(identify_theme)`. -/
def thematicCore (texts : List PyVal) : List String :=
  texts.map identify_theme

/-- Names bound at module level in `sentiment_analysis.py` by its import
statements and definitions (lines 12-32 plus the four `def`s); `os` is
not among them. -/
def sentiment_module_globals : List String :=
  ["pd", "np", "Dict", "Tuple", "warnings",
   "pipeline", "TRANSFORMERS_AVAILABLE",
   "SentimentIntensityAnalyzer", "VADER_AVAILABLE",
   "initialize_sentiment_analyzer", "analyze_sentiment_distilbert",
   "analyze_sentiment_vader", "perform_sentiment_analysis"]

/-- Names bound at module level in `thematic_analysis.py`; `os` is not
among them. -/
def thematic_module_globals : List String :=
  ["pd", "np", "Counter", "re", "warnings",
   "spacy", "SPACY_AVAILABLE", "nlp",
   "TfidfVectorizer", "LatentDirichletAllocation", "NMF",
   "SKLEARN_AVAILABLE", "THEME_KEYWORDS", "preprocess_text",
   "extract_keywords_tfidf", "extract_keywords_spacy",
   "identify_theme", "perform_thematic_analysis"]

/-- Model of the entry point `perform_sentiment_analysis`: its first
executable statement is `os.makedirs(...)`, so the name `os` is resolved
against the module globals before anything is loaded or labeled; if the
lookup fails the call raises `NameError("os")`. Otherwise the backend is
selected once and the core transformation runs. -/
def perform_sentiment_analysis (env : Env) (df : ReviewFrame) :
    Except PyError SentimentOut :=
  if sentiment_module_globals.contains "os" then
    match initialize_sentiment_analyzer env with
    | Except.error e => Except.error e
    | Except.ok a => Except.ok (sentimentCore a df)
  else Except.error (PyError.nameError "os")

/-- Model of the entry point `perform_thematic_analysis`: same
`os.makedirs` first statement against globals without `os`. -/
def perform_thematic_analysis (texts : List PyVal) :
    Except PyError (List String) :=
  if thematic_module_globals.contains "os" then
    Except.ok (thematicCore texts)
  else Except.error (PyError.nameError "os")

/-- Model of `predict_sentiment` in `src/predict.py`: every call
initializes the backend anew from the environment current at that call,
then classifies the single text. -/
def predict_sentiment (env : Env) (review_text : PyVal) :
    Except PyError (String × ℚ) :=
  match initialize_sentiment_analyzer env with
  | Except.error e => Except.error e
  | Except.ok a => Except.ok (analyze_one a review_text)

/-- Model of `predict_theme` in `src/predict.py`. -/
def predict_theme (review_text : PyVal) : String :=
  identify_theme review_text

/-- The loop of `predict_batch`: row `i` calls `predict_sentiment` (and
thus `initialize_sentiment_analyzer`) against the environment at the
time of its own call, on `str(text)`; an initialization error aborts the
whole request. -/
def predict_batch_aux (envs : Nat → Env) (i : Nat) :
    List PyVal → Except PyError (List (String × ℚ × String))
  | [] => Except.ok []
  | t :: ts =>
    match predict_sentiment (envs i) (PyVal.s (pyStrOf t)) with
    | Except.error e => Except.error e
    | Except.ok (label, score) =>
      match predict_batch_aux envs (i + 1) ts with
      | Except.error e => Except.error e
      | Except.ok rest =>
        Except.ok ((label, score, predict_theme (PyVal.s (pyStrOf t))) :: rest)

/-- Model of `predict_batch` in `src/predict.py`. -/
def predict_batch (envs : Nat → Env) (texts : List PyVal) :
    Except PyError (List (String × ℚ × String)) :=
  predict_batch_aux envs 0 texts

/-- A concrete polarity dict with distinct `pos` and `compound`
components (the generic situation for VADER output). -/
def vaderCexScores : PolarityScores :=
  { neg := 0, neu := 1/2, pos := 1/2, compound := 7/10 }

/-- A concrete lexicon backend returning `vaderCexScores` on every text. -/
def vaderCexAnalyzer : VaderAnalyzer := fun _ => Except.ok vaderCexScores

/-- A concrete neural classifier: always `POSITIVE` with confidence
0.55, i.e. below the batch engine's 0.6 downgrade threshold. -/
def cexClassifier : NeuralClassifier := fun _ => Except.ok ("POSITIVE", 11/20)

/-- A concrete lexicon backend whose compound is -0.5 on every text. -/
def cexVader : VaderAnalyzer := fun _ => Except.ok ⟨1, 0, 0, -(1/2)⟩

/-- An environment in which the distilbert pipeline loads. -/
def distEnv : Env := ⟨true, Except.ok cexClassifier, true, cexVader⟩

/-- An environment in which `transformers` is unavailable and VADER is
used. -/
def vadEnv : Env := ⟨false, Except.error (), true, cexVader⟩

/-- A two-row input collection without a `review_id` column. -/
def dfTwo : ReviewFrame := ⟨none, [PyVal.s "good app", PyVal.s "bad app"]⟩

/-- The same collection with a `review_id` column already present. -/
def dfTwoIds : ReviewFrame := ⟨some [7, 3], [PyVal.s "good app", PyVal.s "bad app"]⟩

/-- A three-row input collection whose first and third texts are the
same string. -/
def dfDet : ReviewFrame :=
  ⟨none, [PyVal.s "good", PyVal.s "bad", PyVal.s "good"]⟩

/-! ## Helper lemmas about the Python `max` modelling -/

theorem pyDictMaxByVal_cons (x y : String × Nat) (ys : List (String × Nat)) :
    pyDictMaxByVal (y :: ys) x = pyDictMaxByVal ys (if x.2 < y.2 then y else x) := rfl

theorem pyDictMaxByVal_mem (xs : List (String × Nat)) (x : String × Nat) :
    pyDictMaxByVal xs x ∈ x :: xs := by
  induction xs generalizing x with
  | nil => simp [pyDictMaxByVal]
  | cons y ys ih =>
    rw [pyDictMaxByVal_cons]
    by_cases h : x.2 < y.2
    · rw [if_pos h]
      rcases List.mem_cons.mp (ih y) with h3 | h3
      · rw [h3]; exact List.mem_cons_of_mem _ (List.mem_cons_self _ _)
      · exact List.mem_cons_of_mem _ (List.mem_cons_of_mem _ h3)
    · rw [if_neg h]
      rcases List.mem_cons.mp (ih x) with h3 | h3
      · rw [h3]; exact List.mem_cons_self _ _
      · exact List.mem_cons_of_mem _ (List.mem_cons_of_mem _ h3)

theorem pyDictMaxByVal_ge (xs : List (String × Nat)) (x : String × Nat) :
    ∀ q ∈ x :: xs, q.2 ≤ (pyDictMaxByVal xs x).2 := by
  induction xs generalizing x with
  | nil =>
    intro q hq
    rcases List.mem_cons.mp hq with h | h
    · rw [h]; exact Nat.le_refl _
    · exact absurd h (List.not_mem_nil q)
  | cons y ys ih =>
    intro q hq
    rw [pyDictMaxByVal_cons]
    have hax : x.2 ≤ (if x.2 < y.2 then y else x).2 := by
      by_cases h : x.2 < y.2
      · simp only [if_pos h]; omega
      · simp only [if_neg h]; omega
    have hay : y.2 ≤ (if x.2 < y.2 then y else x).2 := by
      by_cases h : x.2 < y.2
      · simp only [if_pos h]; omega
      · simp only [if_neg h]; omega
    have hacc : (if x.2 < y.2 then y else x).2
        ≤ (pyDictMaxByVal ys (if x.2 < y.2 then y else x)).2 :=
      ih _ _ (List.mem_cons_self _ _)
    rcases List.mem_cons.mp hq with h | h
    · rw [h]; exact Nat.le_trans hax hacc
    · rcases List.mem_cons.mp h with h2 | h2
      · rw [h2]; exact Nat.le_trans hay hacc
      · exact ih _ q (List.mem_cons_of_mem _ h2)

theorem pyDictMaxByVal_val (xs : List (String × Nat)) (x : String × Nat) :
    maxVal (x :: xs) = (pyDictMaxByVal xs x).2 := by
  have key : ∀ (l : List (String × Nat)) (z : String × Nat),
      l.foldl (fun m p => Nat.max m p.2) z.2 = (pyDictMaxByVal l z).2 := by
    intro l
    induction l with
    | nil => intro z; rfl
    | cons y ys ih =>
      intro z
      rw [pyDictMaxByVal_cons]
      have hz : Nat.max z.2 y.2 = (if z.2 < y.2 then y else z).2 := by
        by_cases h : z.2 < y.2 <;> simp [h] <;> omega
      calc (y :: ys).foldl (fun m p => Nat.max m p.2) z.2
          = ys.foldl (fun m p => Nat.max m p.2) (Nat.max z.2 y.2) := rfl
        _ = ys.foldl (fun m p => Nat.max m p.2) (if z.2 < y.2 then y else z).2 := by
            rw [hz]
        _ = (pyDictMaxByVal ys (if z.2 < y.2 then y else z)).2 := ih _
  have h0 : maxVal (x :: xs) = xs.foldl (fun m p => Nat.max m p.2) x.2 := by
    unfold maxVal
    have : Nat.max 0 x.2 = x.2 := Nat.zero_max x.2
    calc (x :: xs).foldl (fun m p => Nat.max m p.2) 0
        = xs.foldl (fun m p => Nat.max m p.2) (Nat.max 0 x.2) := rfl
      _ = xs.foldl (fun m p => Nat.max m p.2) x.2 := by rw [this]
  rw [h0, key xs x]

theorem pyDictMaxByVal_first (xs : List (String × Nat)) (x : String × Nat) :
    (x :: xs).find? (fun q => decide ((pyDictMaxByVal xs x).2 ≤ q.2))
      = some (pyDictMaxByVal xs x) := by
  induction xs generalizing x with
  | nil =>
    rw [List.find?_cons_of_pos _ (by simp [pyDictMaxByVal])]
    rfl
  | cons y ys ih =>
    rw [pyDictMaxByVal_cons]
    by_cases hxy : x.2 < y.2
    · rw [if_pos hxy]
      have hyr : y.2 ≤ (pyDictMaxByVal ys y).2 :=
        pyDictMaxByVal_ge ys y y (List.mem_cons_self _ _)
      have hx : ¬ ((pyDictMaxByVal ys y).2 ≤ x.2) := by omega
      rw [List.find?_cons_of_neg _ (by simpa using hx)]
      exact ih y
    · rw [if_neg hxy]
      have hyx : y.2 ≤ x.2 := Nat.le_of_not_lt hxy
      by_cases hrx : (pyDictMaxByVal ys x).2 ≤ x.2
      · have hfx := ih x
        rw [List.find?_cons_of_pos _ (by simpa using hrx)] at hfx
        rw [List.find?_cons_of_pos _ (by simpa using hrx)]
        exact hfx
      · have hyneg : ¬ ((pyDictMaxByVal ys x).2 ≤ y.2) := by omega
        have hfx := ih x
        rw [List.find?_cons_of_neg _ (by simpa using hrx)] at hfx
        rw [List.find?_cons_of_neg _ (by simpa using hrx),
            List.find?_cons_of_neg _ (by simpa using hyneg)]
        exact hfx

theorem identifyThemeLower_range (tl : String) :
    identifyThemeLower tl = "Other" ∨
    identifyThemeLower tl ∈ THEME_KEYWORDS.map Prod.fst := by
  obtain ⟨x, xs, hsc⟩ : ∃ x xs, theme_scores tl = x :: xs := ⟨_, _, rfl⟩
  by_cases hpos : 0 < maxVal (theme_scores tl)
  · right
    have hval : identifyThemeLower tl = (pyDictMaxByVal xs x).1 := by
      simp only [identifyThemeLower, hsc, List.headD_cons, List.tail_cons]
      rw [if_pos (hsc ▸ hpos)]
    rw [hval]
    have hmem : (pyDictMaxByVal xs x).1 ∈ (x :: xs).map Prod.fst :=
      List.mem_map_of_mem Prod.fst (pyDictMaxByVal_mem xs x)
    rw [← hsc] at hmem
    have hfst : (theme_scores tl).map Prod.fst = THEME_KEYWORDS.map Prod.fst := by
      simp [theme_scores, List.map_map]
    rw [hfst] at hmem
    exact hmem
  · left
    simp only [identifyThemeLower, hsc, List.headD_cons, List.tail_cons]
    rw [if_neg (hsc ▸ hpos)]

theorem identify_theme_s (t : String) :
    identify_theme (PyVal.s t) = identifyThemeLower (pyLower t) := by
  simp only [identify_theme, pyIsNa, pyStrOf, Bool.false_eq_true, if_false]

theorem identify_theme_obj (r : String) :
    identify_theme (PyVal.obj r) = identifyThemeLower (pyLower r) := by
  simp only [identify_theme, pyIsNa, pyStrOf, Bool.false_eq_true, if_false]

/-! ## Theme matcher claims -/

/-- C2: for every input text, `identify_theme` counts, per theme, how
many of that theme's keyword entries occur as substrings of the
(lowercased) text — presence, not frequency; the first theme in the
declaration order of `THEME_KEYWORDS` attaining the maximum count is
returned (first-declared-theme tie-break), and if the maximum count is 0
the result is `"Other"`. In particular `"login transfer"` matches
exactly one keyword of each of the first two themes and is assigned the
earlier-declared `"Account Access Issues"`. -/
theorem identify_theme_first_declared_max (t : String) (x : String × Nat)
    (xs : List (String × Nat))
    (hsc : theme_scores (pyLower t) = x :: xs) :
    (maxVal (x :: xs) = 0 → identify_theme (PyVal.s t) = "Other") ∧
    (0 < maxVal (x :: xs) →
      ∃ r, (x :: xs).find? (fun q => decide (maxVal (x :: xs) ≤ q.2)) = some r ∧
        identify_theme (PyVal.s t) = r.1 ∧
        r.2 = maxVal (x :: xs) ∧
        (∀ q ∈ x :: xs, q.2 ≤ r.2)) ∧
    identify_theme (PyVal.s "login transfer") = "Account Access Issues" := by
  have hid := identify_theme_s t
  refine ⟨?_, ?_, by decide⟩
  · intro h0
    rw [hid]
    simp only [identifyThemeLower, hsc]
    rw [if_neg (by omega)]
  · intro hpos
    refine ⟨pyDictMaxByVal xs x, ?_, ?_, (pyDictMaxByVal_val xs x).symm, ?_⟩
    · simp only [pyDictMaxByVal_val xs x]
      exact pyDictMaxByVal_first xs x
    · rw [hid]
      simp only [identifyThemeLower, hsc, List.headD_cons, List.tail_cons]
      rw [if_pos hpos]
    · intro q hq
      exact pyDictMaxByVal_ge xs x q hq

/-- Witness for C2 at the tie text `"login transfer"`: exactly one
keyword of each of the two first-declared themes matches, and the
earlier-declared theme wins. -/
theorem identify_theme_first_declared_max_witness :
    identify_theme (PyVal.s "login transfer") = "Account Access Issues" ∧
    0 < maxVal (theme_scores (pyLower "login transfer")) :=
  have h := identify_theme_first_declared_max "login transfer"
      ("Account Access Issues", 1)
      [("Transaction Performance", 1), ("User Interface & Experience", 0),
       ("Customer Support", 0), ("Feature Requests", 0), ("App Reliability", 0)]
      (by decide)
  ⟨h.2.2, by decide⟩

set_option maxHeartbeats 1600000 in
/-- C3 (amended): the output set of `identify_theme` is the closed set
of the SIX declared theme names plus `"Other"` — the table contains no
`"Security & Privacy"` theme; each of the six themes is attained, and a
text containing `login` and `password` and no other keyword is assigned
`"Account Access Issues"`. -/
theorem identify_theme_output_range :
    (∀ t : PyVal, identify_theme t ∈
      ["Account Access Issues", "Transaction Performance",
       "User Interface & Experience", "Customer Support",
       "Feature Requests", "App Reliability", "Other"]) ∧
    identify_theme (PyVal.s "login") = "Account Access Issues" ∧
    identify_theme (PyVal.s "transfer") = "Transaction Performance" ∧
    identify_theme (PyVal.s "menu") = "User Interface & Experience" ∧
    identify_theme (PyVal.s "queue") = "Customer Support" ∧
    identify_theme (PyVal.s "budget") = "Feature Requests" ∧
    identify_theme (PyVal.s "glitch") = "App Reliability" ∧
    identify_theme (PyVal.s "login password") = "Account Access Issues" := by
  refine ⟨?_, by decide, by decide, by decide, by decide, by decide, by decide,
    by decide⟩
  intro t
  have hnames : THEME_KEYWORDS.map Prod.fst =
      ["Account Access Issues", "Transaction Performance",
       "User Interface & Experience", "Customer Support",
       "Feature Requests", "App Reliability"] := rfl
  cases t with
  | none' => exact by decide
  | nan => exact by decide
  | s str =>
    rw [identify_theme_s str]
    rcases identifyThemeLower_range (pyLower str) with h | h
    · rw [h]; decide
    · rw [hnames] at h
      simp only [List.mem_cons, List.not_mem_nil, or_false] at h
      rcases h with h | h | h | h | h | h <;> rw [h] <;> decide
  | obj str =>
    rw [identify_theme_obj str]
    rcases identifyThemeLower_range (pyLower str) with h | h
    · rw [h]; decide
    · rw [hnames] at h
      simp only [List.mem_cons, List.not_mem_nil, or_false] at h
      rcases h with h | h | h | h | h | h <;> rw [h] <;> decide

/-- Counterexample to C3 as stated: no input whatsoever is ever
assigned the theme `"Security & Privacy"` — that name does not appear
in the `THEME_KEYWORDS` table, which declares only six themes. -/
theorem no_text_gets_security_privacy :
    ¬ ∃ t : PyVal, identify_theme t = "Security & Privacy" := by
  rintro ⟨t, h⟩
  cases t with
  | none' => exact absurd h (by decide)
  | nan => exact absurd h (by decide)
  | s str =>
    rw [identify_theme_s str] at h
    rcases identifyThemeLower_range (pyLower str) with h2 | h2
    · rw [h2] at h; exact absurd h (by decide)
    · rw [h] at h2; exact absurd h2 (by decide)
  | obj str =>
    rw [identify_theme_obj str] at h
    rcases identifyThemeLower_range (pyLower str) with h2 | h2
    · rw [h2] at h; exact absurd h (by decide)
    · rw [h] at h2; exact absurd h2 (by decide)

/-- Counterexample to C4 as stated: theme matching is NOT performed on
the fully normalized text. `identify_theme` only lowercases; it does not
strip punctuation, so `"sign-in"` (which matches no keyword) gets
`"Other"` while its normalized form `"sign in"` (produced by
`preprocess_text`) matches the `"sign in"` keyword and gets
`"Account Access Issues"`. -/
theorem identify_theme_punctuation_sensitive :
    identify_theme (PyVal.s "sign-in") = "Other" ∧
    preprocess_text (PyVal.s "sign-in") = "sign in" ∧
    identify_theme (PyVal.s (preprocess_text (PyVal.s "sign-in")))
      = "Account Access Issues" ∧
    identify_theme (PyVal.s "sign-in")
      ≠ identify_theme (PyVal.s (preprocess_text (PyVal.s "sign-in"))) :=
  ⟨by decide, by decide, by decide, by decide⟩

/-- C4 (amended): `identify_theme` matches keywords on
`str(text).lower()` — lowercasing is the only normalization applied, so
the assigned theme depends on the input text only through its
lowercased form (case-insensitivity), while punctuation differences can
change the result. -/
theorem identify_theme_lowercase_only (s t : String)
    (h : pyLower s = pyLower t) :
    identify_theme (PyVal.s s) = identify_theme (PyVal.s t) := by
  rw [identify_theme_s s, identify_theme_s t, h]

/-- Witness for the amended C4 at a concrete pair of texts differing
only in letter case. -/
theorem identify_theme_lowercase_only_witness :
    pyLower "LOGIN Failed!" = pyLower "login failed!" ∧
    identify_theme (PyVal.s "LOGIN Failed!")
      = identify_theme (PyVal.s "login failed!") :=
  ⟨by decide,
   identify_theme_lowercase_only "LOGIN Failed!" "login failed!" (by decide)⟩

/-- Counterexample to C9 as stated: a non-string input is not mapped to
`"Other"`; the code coerces it with `str()` and matches keywords in the
rendering. `str(['login'])` is `"['login']"`, which contains the
keyword `login`, so the list `['login']` is assigned
`"Account Access Issues"`. -/
theorem identify_theme_nonstring_not_other :
    identify_theme (PyVal.obj "['login']") = "Account Access Issues" ∧
    identify_theme (PyVal.obj "['login']") ≠ "Other" :=
  ⟨by decide, by decide⟩

/-- C9 (amended): missing input (`None`/NaN) yields `"Other"` via the
`pd.isna` short circuit; the empty string yields `"Other"` because no
keyword matches (normalization and scoring do run on it); any other
non-string input is coerced with `str()` and matched exactly like the
string it renders to. -/
theorem identify_theme_missing_default :
    identify_theme PyVal.none' = "Other" ∧
    identify_theme PyVal.nan = "Other" ∧
    identify_theme (PyVal.s "") = "Other" ∧
    ∀ r : String, identify_theme (PyVal.obj r) = identify_theme (PyVal.s r) :=
  ⟨rfl, rfl, by decide, fun r => by rw [identify_theme_obj r, identify_theme_s r]⟩

/-! ## Helper lemmas for the sentiment classifier -/

theorem analyze_vader_default (t : PyVal)
    (h : (pyIsNa t || (pyStrip (pyStrOf t) == "")) = true)
    (analyzer : VaderAnalyzer) :
    analyze_sentiment_vader t analyzer = ("NEUTRAL", 0) := by
  simp only [analyze_sentiment_vader]
  exact if_pos h

theorem analyze_distilbert_default (t : PyVal)
    (h : (pyIsNa t || (pyStrip (pyStrOf t) == "")) = true)
    (classifier : NeuralClassifier) :
    analyze_sentiment_distilbert t classifier = ("NEUTRAL", 1/2) := by
  simp only [analyze_sentiment_distilbert]
  exact if_pos h

theorem analyze_vader_onError (t : PyVal) (analyzer : VaderAnalyzer)
    (hvalid : (pyIsNa t || (pyStrip (pyStrOf t) == "")) = false)
    (herr : analyzer (pyStrOf t) = Except.error ()) :
    analyze_sentiment_vader t analyzer = ("NEUTRAL", 0) := by
  simp only [analyze_sentiment_vader]
  rw [hvalid, if_neg (by decide), herr]

theorem analyze_distilbert_onError (t : PyVal) (classifier : NeuralClassifier)
    (hvalid : (pyIsNa t || (pyStrip (pyStrOf t) == "")) = false)
    (herr : classifier (pyStrOf t) = Except.error ()) :
    analyze_sentiment_distilbert t classifier = ("NEUTRAL", 1/2) := by
  simp only [analyze_sentiment_distilbert]
  rw [hvalid, if_neg (by decide), herr]

theorem analyze_vader_eval (analyzer : VaderAnalyzer) (t : PyVal)
    (sc : PolarityScores)
    (hvalid : (pyIsNa t || (pyStrip (pyStrOf t) == "")) = false)
    (hok : analyzer (pyStrOf t) = Except.ok sc) :
    analyze_sentiment_vader t analyzer =
      (if sc.compound ≥ 5/100 then ("POSITIVE", sc.compound)
       else if sc.compound ≤ -(5/100) then ("NEGATIVE", |sc.compound|)
       else ("NEUTRAL", |sc.compound|)) := by
  simp only [analyze_sentiment_vader]
  rw [hvalid, if_neg (by decide), hok]

theorem analyze_distilbert_eval (classifier : NeuralClassifier) (t : PyVal)
    (label : String) (score : ℚ)
    (hvalid : (pyIsNa t || (pyStrip (pyStrOf t) == "")) = false)
    (hok : classifier (pyStrOf t) = Except.ok (label, score)) :
    analyze_sentiment_distilbert t classifier =
      (if label == "POSITIVE" then ("POSITIVE", score)
       else if label == "NEGATIVE" then ("NEGATIVE", score)
       else ("NEUTRAL", 1/2)) := by
  simp only [analyze_sentiment_distilbert]
  rw [hvalid, if_neg (by decide), hok]

theorem zipWith_map_same {α β γ δ : Type} (f : β → γ → δ) (g : α → β)
    (h : α → γ) (l : List α) :
    List.zipWith f (l.map g) (l.map h) = l.map fun x => f (g x) (h x) := by
  induction l with
  | nil => rfl
  | cons a l ih => simp only [List.map_cons, List.zipWith_cons_cons, ih]

theorem sentimentCore_label_col (a : Analyzer) (df : ReviewFrame) :
    (sentimentCore a df).sentiment_label
      = df.review_text.map fun t =>
          match a with
          | Analyzer.distilbert _ =>
            if (analyze_one a t).2 < 6/10 then "NEUTRAL" else (analyze_one a t).1
          | Analyzer.vader _ => (analyze_one a t).1 := by
  cases a with
  | distilbert c =>
    simp only [sentimentCore, List.map_map]
    rw [zipWith_map_same]
    rfl
  | vader v =>
    simp only [sentimentCore, List.map_map]
    rfl

theorem sentimentCore_score_col (a : Analyzer) (df : ReviewFrame) :
    (sentimentCore a df).sentiment_score
      = df.review_text.map fun t => (analyze_one a t).2 := by
  cases a with
  | distilbert c => simp only [sentimentCore, List.map_map]; rfl
  | vader v => simp only [sentimentCore, List.map_map]; rfl

/-! ## Sentiment classifier claims -/

/-- Counterexample to C1 as stated: the lexicon backend's POSITIVE score
is the compound score itself, not the positive component of the
polarity dict. With an analyzer returning `pos = 1/2` and
`compound = 7/10`, the code returns score `7/10`, which differs from the
positive component. -/
theorem vader_score_is_compound_not_component :
    analyze_sentiment_vader (PyVal.s "This app is excellent and fast") vaderCexAnalyzer
      = ("POSITIVE", vaderCexScores.compound) ∧
    vaderCexScores.compound ≠ vaderCexScores.pos := by
  constructor
  · rw [analyze_vader_eval vaderCexAnalyzer (PyVal.s "This app is excellent and fast")
      vaderCexScores (by decide) rfl]
    rw [if_pos (by norm_num [vaderCexScores])]
  · norm_num [vaderCexScores]

/-- C1 (amended): for every analyzer output with compound ≥ 0.05 the
lexicon classifier returns POSITIVE with score equal to the compound
itself (in particular a positive score); with compound ≤ -0.05 it
returns NEGATIVE with score the magnitude of the compound; otherwise it
returns NEUTRAL with score the absolute compound. -/
theorem vader_threshold_classification (analyzer : VaderAnalyzer) (t : PyVal)
    (sc : PolarityScores)
    (hvalid : (pyIsNa t || (pyStrip (pyStrOf t) == "")) = false)
    (hok : analyzer (pyStrOf t) = Except.ok sc) :
    (sc.compound ≥ 5/100 →
      analyze_sentiment_vader t analyzer = ("POSITIVE", sc.compound)
        ∧ 0 < sc.compound) ∧
    (sc.compound ≤ -(5/100) →
      analyze_sentiment_vader t analyzer = ("NEGATIVE", |sc.compound|)) ∧
    (¬ sc.compound ≥ 5/100 → ¬ sc.compound ≤ -(5/100) →
      analyze_sentiment_vader t analyzer = ("NEUTRAL", |sc.compound|)) := by
  have he := analyze_vader_eval analyzer t sc hvalid hok
  refine ⟨fun h => ⟨?_, ?_⟩, fun h => ?_, fun h1 h2 => ?_⟩
  · rw [he, if_pos h]
  · have h5 : (0 : ℚ) < 5/100 := by norm_num
    linarith
  · have hlt : ¬ sc.compound ≥ 5/100 := by
      intro hge
      have : (5 : ℚ)/100 ≤ -(5/100) := le_trans hge h
      norm_num at this
    rw [he, if_neg hlt, if_pos h]
  · rw [he, if_neg h1, if_neg h2]

/-- Witness for the amended C1 at a concrete text and analyzer whose
compound is 0.7. -/
theorem vader_threshold_classification_witness :
    analyze_sentiment_vader (PyVal.s "This app is excellent and fast") vaderCexAnalyzer
      = ("POSITIVE", vaderCexScores.compound) ∧ 0 < vaderCexScores.compound :=
  (vader_threshold_classification vaderCexAnalyzer
      (PyVal.s "This app is excellent and fast") vaderCexScores
      (by decide) rfl).1 (by norm_num [vaderCexScores])

/-- C6: any exception during single-text classification is caught and
degrades to `(NEUTRAL, 0.5)` for the neural backend and `(NEUTRAL, 0.0)`
for the lexicon backend; empty or missing text short-circuits to the
same per-backend defaults without consulting the backend at all (the
result is independent of the backend function); and the batch is never
aborted: the label and score columns always have one entry per input
row. -/
theorem sentiment_failure_degrades
    (c : NeuralClassifier) (v : VaderAnalyzer) (t u : PyVal)
    (hcerr : c (pyStrOf t) = Except.error ())
    (hverr : v (pyStrOf t) = Except.error ())
    (hu : (pyIsNa u || (pyStrip (pyStrOf u) == "")) = true) :
    analyze_sentiment_distilbert t c = ("NEUTRAL", 1/2) ∧
    analyze_sentiment_vader t v = ("NEUTRAL", 0) ∧
    (∀ c' : NeuralClassifier, analyze_sentiment_distilbert u c' = ("NEUTRAL", 1/2)) ∧
    (∀ v' : VaderAnalyzer, analyze_sentiment_vader u v' = ("NEUTRAL", 0)) ∧
    (∀ (a : Analyzer) (df : ReviewFrame),
      (sentimentCore a df).sentiment_label.length = df.review_text.length ∧
      (sentimentCore a df).sentiment_score.length = df.review_text.length) := by
  refine ⟨?_, ?_, fun c' => ?_, fun v' => ?_, fun a df => ⟨?_, ?_⟩⟩
  · by_cases h : (pyIsNa t || (pyStrip (pyStrOf t) == "")) = true
    · exact analyze_distilbert_default t h c
    · exact analyze_distilbert_onError t c (Bool.eq_false_iff.mpr h) hcerr
  · by_cases h : (pyIsNa t || (pyStrip (pyStrOf t) == "")) = true
    · exact analyze_vader_default t h v
    · exact analyze_vader_onError t v (Bool.eq_false_iff.mpr h) hverr
  · exact analyze_distilbert_default u hu c'
  · exact analyze_vader_default u hu v'
  · rw [sentimentCore_label_col, List.length_map]
  · rw [sentimentCore_score_col, List.length_map]

/-- Witness for C6: an always-raising backend on a nonblank text, and a
whitespace-only text for the short-circuit case. -/
theorem sentiment_failure_degrades_witness :
    analyze_sentiment_distilbert (PyVal.s "boom")
      (fun _ => Except.error ()) = ("NEUTRAL", 1/2) ∧
    analyze_sentiment_vader (PyVal.s "boom")
      (fun _ => Except.error ()) = ("NEUTRAL", 0) ∧
    (∀ c' : NeuralClassifier,
      analyze_sentiment_distilbert (PyVal.s "  ") c' = ("NEUTRAL", 1/2)) ∧
    (∀ v' : VaderAnalyzer,
      analyze_sentiment_vader (PyVal.s "  ") v' = ("NEUTRAL", 0)) ∧
    (∀ (a : Analyzer) (df : ReviewFrame),
      (sentimentCore a df).sentiment_label.length = df.review_text.length ∧
      (sentimentCore a df).sentiment_score.length = df.review_text.length) :=
  sentiment_failure_degrades (fun _ => Except.error ()) (fun _ => Except.error ())
    (PyVal.s "boom") (PyVal.s "  ") rfl rfl (by decide)

/-- C5: labeling is deterministic — within one batch with one selected
backend, rows holding the same `review_text` receive the same sentiment
label, the same sentiment score and the same theme, and re-running the
core transformations on an equal input collection yields equal output
columns. -/
theorem labeling_deterministic (a : Analyzer) (df : ReviewFrame)
    (i j : Nat) (t : PyVal)
    (hi : df.review_text[i]? = some t)
    (hj : df.review_text[j]? = some t) :
    (sentimentCore a df).sentiment_label[i]?
      = (sentimentCore a df).sentiment_label[j]? ∧
    (sentimentCore a df).sentiment_score[i]?
      = (sentimentCore a df).sentiment_score[j]? ∧
    (thematicCore df.review_text)[i]?
      = (thematicCore df.review_text)[j]? ∧
    (∀ df' : ReviewFrame, df' = df →
      sentimentCore a df' = sentimentCore a df ∧
      thematicCore df'.review_text = thematicCore df.review_text) := by
  refine ⟨?_, ?_, ?_, ?_⟩
  · rw [sentimentCore_label_col, List.getElem?_map, List.getElem?_map, hi, hj]
  · rw [sentimentCore_score_col, List.getElem?_map, List.getElem?_map, hi, hj]
  · simp only [thematicCore]
    rw [List.getElem?_map, List.getElem?_map, hi, hj]
  · rintro df' rfl
    exact ⟨rfl, rfl⟩

/-- Witness for C5 on a concrete three-row batch whose rows 0 and 2
hold the same text. -/
theorem labeling_deterministic_witness :
    (sentimentCore (Analyzer.vader cexVader) dfDet).sentiment_label[0]?
      = (sentimentCore (Analyzer.vader cexVader) dfDet).sentiment_label[2]? ∧
    (sentimentCore (Analyzer.vader cexVader) dfDet).sentiment_score[0]?
      = (sentimentCore (Analyzer.vader cexVader) dfDet).sentiment_score[2]? ∧
    (thematicCore dfDet.review_text)[0]?
      = (thematicCore dfDet.review_text)[2]? ∧
    (∀ df' : ReviewFrame, df' = dfDet →
      sentimentCore (Analyzer.vader cexVader) df'
        = sentimentCore (Analyzer.vader cexVader) dfDet ∧
      thematicCore df'.review_text = thematicCore dfDet.review_text) :=
  labeling_deterministic (Analyzer.vader cexVader) dfDet 0 2 (PyVal.s "good") rfl rfl

/-! ## Serving layer and orchestrator claims -/

theorem predict_batch_aux_vader_const (env : Env) (v : VaderAnalyzer)
    (h : initialize_sentiment_analyzer env = Except.ok (Analyzer.vader v))
    (ts : List PyVal) : ∀ i : Nat,
    predict_batch_aux (fun _ => env) i ts
      = Except.ok (ts.map fun t =>
          ((analyze_sentiment_vader (PyVal.s (pyStrOf t)) v).1,
           (analyze_sentiment_vader (PyVal.s (pyStrOf t)) v).2,
           identify_theme (PyVal.s (pyStrOf t)))) := by
  induction ts with
  | nil => intro i; rfl
  | cons t ts ih =>
    intro i
    rcases hx : analyze_sentiment_vader (PyVal.s (pyStrOf t)) v with ⟨l, s⟩
    simp only [predict_batch_aux, predict_sentiment, h, analyze_one, hx,
      ih (i + 1), List.map_cons, predict_theme]

/-- C7 (amended): when every initialization call inside the serving
layer observes the same environment and that environment selects the
lexicon backend, `predict_batch` returns, per submitted text, exactly
the `(label, score)` the batch engine's per-text lexicon classifier
assigns together with the batch engine's theme; the batch engine's
label/score/theme columns are those same per-text values. (As the
counterexample shows, the serving layer re-initializes the backend per
review and skips the batch engine's neural low-confidence downgrade, so
the agreement is conditional on a stable environment and, for labels,
exact only for the lexicon backend.) -/
theorem predict_batch_matches_engine (env : Env) (v : VaderAnalyzer)
    (texts : List String)
    (h : initialize_sentiment_analyzer env = Except.ok (Analyzer.vader v)) :
    predict_batch (fun _ => env) (texts.map PyVal.s)
      = Except.ok (texts.map fun t =>
          ((analyze_sentiment_vader (PyVal.s t) v).1,
           (analyze_sentiment_vader (PyVal.s t) v).2,
           identify_theme (PyVal.s t))) ∧
    (sentimentCore (Analyzer.vader v) ⟨none, texts.map PyVal.s⟩).sentiment_label
      = texts.map (fun t => (analyze_sentiment_vader (PyVal.s t) v).1) ∧
    (sentimentCore (Analyzer.vader v) ⟨none, texts.map PyVal.s⟩).sentiment_score
      = texts.map (fun t => (analyze_sentiment_vader (PyVal.s t) v).2) ∧
    thematicCore (texts.map PyVal.s)
      = texts.map (fun t => identify_theme (PyVal.s t)) := by
  refine ⟨?_, ?_, ?_, ?_⟩
  · rw [predict_batch, predict_batch_aux_vader_const env v h (texts.map PyVal.s) 0]
    simp only [List.map_map, Function.comp_def, pyStrOf]
  · rw [sentimentCore_label_col]
    simp only [List.map_map, Function.comp_def, analyze_one]
  · rw [sentimentCore_score_col]
    simp only [List.map_map, Function.comp_def, analyze_one]
  · simp only [thematicCore, List.map_map, Function.comp_def]

/-- Witness for the amended C7 on a one-text batch under the constant
VADER environment. -/
theorem predict_batch_matches_engine_witness :
    predict_batch (fun _ => vadEnv) (["good review"].map PyVal.s)
      = Except.ok ((["good review"]).map fun t =>
          ((analyze_sentiment_vader (PyVal.s t) cexVader).1,
           (analyze_sentiment_vader (PyVal.s t) cexVader).2,
           identify_theme (PyVal.s t))) ∧
    (sentimentCore (Analyzer.vader cexVader)
        ⟨none, ["good review"].map PyVal.s⟩).sentiment_label
      = ["good review"].map (fun t => (analyze_sentiment_vader (PyVal.s t) cexVader).1) ∧
    (sentimentCore (Analyzer.vader cexVader)
        ⟨none, ["good review"].map PyVal.s⟩).sentiment_score
      = ["good review"].map (fun t => (analyze_sentiment_vader (PyVal.s t) cexVader).2) ∧
    thematicCore (["good review"].map PyVal.s)
      = ["good review"].map (fun t => identify_theme (PyVal.s t)) :=
  predict_batch_matches_engine vadEnv cexVader ["good review"] rfl

/-- Counterexample to C7 as stated: the serving layer does not expose
the same labeling contract as the batch engine. (i) The batch engine
downgrades neural labels with score < 0.6 to NEUTRAL but the serving
layer does not: on the same text and backend the serving layer returns
POSITIVE where the engine's column holds NEUTRAL. (ii) The backend is
re-selected per review inside `predict_sentiment` (not once per batch):
when the environment changes between the two per-row initialization
calls, one batch mixes backends and the second row's label differs from
what the once-selected backend would assign. -/
theorem predict_batch_diverges_from_engine :
    predict_batch (fun _ => distEnv) [PyVal.s "meh"]
      = Except.ok [("POSITIVE", 11/20, "Other")] ∧
    (sentimentCore (Analyzer.distilbert cexClassifier)
        ⟨none, [PyVal.s "meh"]⟩).sentiment_label = ["NEUTRAL"] ∧
    ("POSITIVE" : String) ≠ "NEUTRAL" ∧
    predict_batch (fun i => if i = 0 then distEnv else vadEnv)
        [PyVal.s "a", PyVal.s "b"]
      = Except.ok [("POSITIVE", 11/20, "Other"), ("NEGATIVE", 1/2, "Other")] ∧
    (sentimentCore (Analyzer.distilbert cexClassifier)
        ⟨none, [PyVal.s "a", PyVal.s "b"]⟩).sentiment_label
      = ["NEUTRAL", "NEUTRAL"] := by
  have hinitD : initialize_sentiment_analyzer distEnv
      = Except.ok (Analyzer.distilbert cexClassifier) := rfl
  have hinitV : initialize_sentiment_analyzer vadEnv
      = Except.ok (Analyzer.vader cexVader) := rfl
  have hpsD : ∀ x : PyVal, predict_sentiment distEnv x
      = Except.ok (analyze_sentiment_distilbert x cexClassifier) := by
    intro x
    simp only [predict_sentiment, hinitD, analyze_one]
  have hpsV : ∀ x : PyVal, predict_sentiment vadEnv x
      = Except.ok (analyze_sentiment_vader x cexVader) := by
    intro x
    simp only [predict_sentiment, hinitV, analyze_one]
  have hDmeh : analyze_sentiment_distilbert (PyVal.s "meh") cexClassifier
      = ("POSITIVE", 11/20) := by
    rw [analyze_distilbert_eval cexClassifier (PyVal.s "meh") "POSITIVE" (11/20)
      (by decide) rfl]
    rfl
  have hDa : analyze_sentiment_distilbert (PyVal.s "a") cexClassifier
      = ("POSITIVE", 11/20) := by
    rw [analyze_distilbert_eval cexClassifier (PyVal.s "a") "POSITIVE" (11/20)
      (by decide) rfl]
    rfl
  have hVb : analyze_sentiment_vader (PyVal.s "b") cexVader
      = ("NEGATIVE", 1/2) := by
    rw [analyze_vader_eval cexVader (PyVal.s "b") ⟨1, 0, 0, -(1/2)⟩ (by decide) rfl]
    rw [if_neg (by norm_num), if_pos (by norm_num)]
    norm_num
  have hthm : identify_theme (PyVal.s "meh") = "Other" := by decide
  have htha : identify_theme (PyVal.s "a") = "Other" := by decide
  have hthb : identify_theme (PyVal.s "b") = "Other" := by decide
  have he0 : (fun i : Nat => if i = 0 then distEnv else vadEnv) 0 = distEnv := rfl
  have he1 : (fun i : Nat => if i = 0 then distEnv else vadEnv) (0 + 1) = vadEnv := rfl
  refine ⟨?_, ?_, by decide, ?_, ?_⟩
  · simp only [predict_batch, predict_batch_aux, hpsD, pyStrOf, hDmeh,
      predict_theme, hthm]
  · rw [sentimentCore_label_col]
    simp only [List.map_cons, List.map_nil, analyze_one, hDmeh]
    rw [if_pos (by norm_num)]
  · simp only [predict_batch, predict_batch_aux, he0, he1, if_true, if_false,
      hpsD, hpsV, pyStrOf, hDa, hVb, predict_theme, htha, hthb]
  · rw [sentimentCore_label_col]
    simp only [List.map_cons, List.map_nil, analyze_one, hDa,
      analyze_distilbert_eval cexClassifier (PyVal.s "b") "POSITIVE" (11/20)
        (by decide) rfl]
    rw [if_pos (by norm_num)]
    simp only [List.cons.injEq, and_true, true_and]
    rw [if_pos (by norm_num)]

/-- C8 (the claim is right; the code has a slip): the `review_id`
assignment of the batch orchestrator — ids `1..N` in input order when
the column is absent, ids untouched when present — sits in the core
transformation, but every invocation of `perform_sentiment_analysis`
raises `NameError("os")` at its first executable statement before the
input is even read, because the module never imports `os`; so on the
concrete two-row input the entry point errors while the core (the
intended behavior) assigns `[1, 2]`, and leaves `[7, 3]` untouched. -/
theorem review_id_assignment_unreachable :
    (∀ env : Env, perform_sentiment_analysis env dfTwo
      = Except.error (PyError.nameError "os")) ∧
    (∀ a : Analyzer, (sentimentCore a dfTwo).review_id = [1, 2]) ∧
    (∀ a : Analyzer, (sentimentCore a dfTwoIds).review_id = [7, 3]) :=
  ⟨fun _ => rfl, fun _ => rfl, fun _ => rfl⟩

/-- C10: every invocation of `perform_sentiment_analysis` and of
`perform_thematic_analysis` raises an unhandled `NameError` on the name
`os` before any review is loaded or labeled: both function bodies begin
with `os.makedirs(...)` while neither module's import list binds `os`. -/
theorem orchestrators_raise_name_error :
    (∀ (env : Env) (df : ReviewFrame),
      perform_sentiment_analysis env df = Except.error (PyError.nameError "os")) ∧
    (∀ texts : List PyVal,
      perform_thematic_analysis texts = Except.error (PyError.nameError "os")) :=
  ⟨fun _ _ => rfl, fun _ => rfl⟩
